import Mathlib

/-!
Shallow embedding of the n8n local-build and docker-scan helper scripts
(src/local_build.mjs and src/docker_scan.mjs).

JavaScript numbers that can be NaN are modelled by the type JsNum below
(NaN or an exact rational); the numeric literals appearing in the scripts
are all exactly representable, so rational arithmetic agrees with the
script on every value considered here.  JavaScript objects used as
string-keyed counter maps are modelled as association lists in insertion
order, which is the enumeration order of Object.entries for the
non-numeric keys used by the scripts.  Sets are modelled as
duplicate-free lists in insertion order.
-/

/-- A JavaScript number as used by the size parser: either NaN or an exact
rational value. -/
inductive JsNum where
  | nan : JsNum
  | val : ℚ → JsNum
deriving DecidableEq

/-- JavaScript addition on such numbers: NaN absorbs. -/
def jsAdd : JsNum → JsNum → JsNum
  | JsNum.nan, _ => JsNum.nan
  | JsNum.val _, JsNum.nan => JsNum.nan
  | JsNum.val a, JsNum.val b => JsNum.val (a + b)

/-- JavaScript multiplication by a rational constant: NaN absorbs. -/
def jsMulC : JsNum → ℚ → JsNum
  | JsNum.nan, _ => JsNum.nan
  | JsNum.val a, c => JsNum.val (a * c)

/-- JavaScript division by a rational constant: NaN absorbs. -/
def jsDivC : JsNum → ℚ → JsNum
  | JsNum.nan, _ => JsNum.nan
  | JsNum.val a, c => JsNum.val (a / c)

/-- The JavaScript comparison x > c, which is false when x is NaN. -/
def jsGt : JsNum → ℚ → Bool
  | JsNum.nan, _ => false
  | JsNum.val a, c => decide (c < a)

/-- Characters matched by the regex class [\d.] in parseSizeToBytes. -/
def isDigitOrDot (c : Char) : Bool := c.isDigit || decide (c = '.')

/-- Characters matched by the regex class \s (the ASCII part, which is all
that can occur in the size strings the script feeds to the parser). -/
def isJsSpace (c : Char) : Bool :=
  decide (c = ' ') || decide (c = '\t') || decide (c = '\n') || decide (c = '\x0d')
    || decide (c = '\x0b') || decide (c = '\x0c')

/-- The numeric value of a list of decimal digit characters. -/
def digitsVal (ds : List Char) : ℕ :=
  ds.foldl (fun a c => a * 10 + (c.toNat - 48)) 0

/-- JavaScript parseFloat restricted to the strings the regex group
([\d.]+) can produce, i.e. nonempty strings of digits and dots: the longest
prefix of the form digits, optional dot, digits is parsed; if that prefix
is empty or a bare dot the result is NaN. -/
def parseFloatDigits (cs : List Char) : JsNum :=
  let intPart := cs.takeWhile Char.isDigit
  let rest := cs.dropWhile Char.isDigit
  match rest with
  | '.' :: rest2 =>
      let fracPart := rest2.takeWhile Char.isDigit
      if intPart = [] ∧ fracPart = [] then JsNum.nan
      else JsNum.val ((digitsVal intPart : ℚ) + (digitsVal fracPart : ℚ) / 10 ^ fracPart.length)
  | _ => if intPart = [] then JsNum.nan else JsNum.val (digitsVal intPart)

/-- Recognized unit strings of the size regex, after upper-casing. -/
def isSizeUnit (u : String) : Bool :=
  u = "GB" || u = "MB" || u = "M" || u = "KB" || u = "K" || u = "B"

/-- Matching of the anchored regex ([\d.]+)\s*(GB|MB|M|KB|K|B) with the
case-insensitive flag against a whole string.  Because the three character
classes involved (digits and dots, whitespace, unit letters) are pairwise
disjoint, the regex matches exactly when the string decomposes as a
nonempty maximal run of digits and dots, a maximal run of whitespace, and
a recognized unit; the groups returned are the numeric part and the
upper-cased unit. -/
def matchSizeRegex (s : String) : Option (List Char × String) :=
  let cs := s.data
  let numPart := cs.takeWhile isDigitOrDot
  let rest := cs.dropWhile isDigitOrDot
  let unitPart := rest.dropWhile isJsSpace
  let unitUpper := String.mk (unitPart.map Char.toUpper)
  if numPart ≠ [] ∧ isSizeUnit unitUpper then some (numPart, unitUpper) else none

/-- The switch on the upper-cased unit in parseSizeToBytes, including its
default branch returning 0. -/
def applyUnit (value : JsNum) (unit : String) : JsNum :=
  if unit = "GB" then jsMulC value (1024 * 1024 * 1024)
  else if unit = "MB" ∨ unit = "M" then jsMulC value (1024 * 1024)
  else if unit = "KB" ∨ unit = "K" then jsMulC value 1024
  else if unit = "B" then value
  else JsNum.val 0

/-- Result of parseSizeToBytes: the returned number of bytes and whether
the could-not-parse warning was printed. -/
structure SizeResult where
  bytes : JsNum
  warned : Bool
deriving DecidableEq

/-- parseSizeToBytes from local_build.mjs: on regex failure it warns and
returns 0; on success it applies parseFloat to the numeric group and the
unit multiplier to the value. -/
def parseSizeToBytes (s : String) : SizeResult :=
  match matchSizeRegex s with
  | none => ⟨JsNum.val 0, true⟩
  | some (numPart, unit) => ⟨applyUnit (parseFloatDigits numPart) unit, false⟩

/-- The 300 MB layer-overhead buffer of local_build.mjs, in bytes. -/
def bufferBytes : ℚ := 300 * 1024 * 1024

/-- The estimated-total-image-size computation of local_build.mjs: when
the compiled-app size or the inspect size is positive, the sum of both
plus the 300 MB buffer is reported in MB; otherwise the estimate stays at
its sentinel N/A, modelled as none. -/
def estimatedTotalImageSizeMB (compiledAppOutputBytes virtualSizeBytes : JsNum) :
    Option JsNum :=
  if jsGt compiledAppOutputBytes 0 || jsGt virtualSizeBytes 0 then
    some (jsDivC (jsAdd (jsAdd compiledAppOutputBytes virtualSizeBytes) (JsNum.val bufferBytes))
      (1024 * 1024))
  else none

/-- A vulnerability record of the Trivy JSON report, with the fields
docker_scan.mjs reads. -/
structure Vuln where
  VulnerabilityID : String
  Severity : String
  Title : Option String := none
  PkgName : Option String := none
deriving DecidableEq

/-- A result group of the Trivy JSON report; its vulnerability list may be
absent. -/
structure ScanResult where
  Vulnerabilities : Option (List Vuln)
deriving DecidableEq

/-- The Trivy JSON report; its result-group list may be absent. -/
structure ScanData where
  Results : Option (List ScanResult)
deriving DecidableEq

/-- The mutable state of the counting loop of docker_scan.mjs: the
severityMap object (an insertion-ordered string-keyed counter), the
totalVulns counter and the cveSet set (insertion-ordered, duplicate
free). -/
structure AggState where
  severityMap : List (String × ℕ)
  totalVulns : ℕ
  cveSet : List String
deriving DecidableEq

/-- The initial state: empty map, zero total, empty set. -/
def initAggState : AggState := ⟨[], 0, []⟩

/-- severityMap[k] = (severityMap[k] || 0) + 1 on an insertion-ordered
association list. -/
def bump : List (String × ℕ) → String → List (String × ℕ)
  | [], k => [(k, 1)]
  | (k', v) :: rest, k => if k' = k then (k', v + 1) :: rest else (k', v) :: bump rest k

/-- Set.prototype.add on an insertion-ordered duplicate-free list. -/
def setAdd (s : List String) (x : String) : List String :=
  if x ∈ s then s else s ++ [x]

/-- severityMap[k] || 0, the count stored for key k. -/
def countOf : List (String × ℕ) → String → ℕ
  | [], _ => 0
  | (k', v) :: rest, k => if k' = k then v else countOf rest k

/-- The sum of all counts of the map, i.e. of Object.values. -/
def mapTotal (m : List (String × ℕ)) : ℕ := (m.map Prod.snd).sum

/-- The body of the inner counting loop of docker_scan.mjs for one
vulnerability record. -/
def processVuln (st : AggState) (v : Vuln) : AggState :=
  { severityMap := bump st.severityMap v.Severity
    totalVulns := st.totalVulns + 1
    cveSet := setAdd st.cveSet v.VulnerabilityID }

/-- The body of the outer counting loop for one result group: iterate
over its vulnerabilities when present. -/
def processResult (st : AggState) (r : ScanResult) : AggState :=
  match r.Vulnerabilities with
  | some vs => vs.foldl processVuln st
  | none => st

/-- The whole counting pass over a parsed JSON report. -/
def aggregate (d : ScanData) : AggState :=
  match d.Results with
  | some rs => rs.foldl processResult initAggState
  | none => initAggState

/-- All vulnerability records of a report, in encounter order. -/
def allVulns (d : ScanData) : List Vuln :=
  match d.Results with
  | some rs => (rs.map (fun r => r.Vulnerabilities.getD [])).flatten
  | none => []

/-- The fixed severity order used by the summary sort comparator. -/
def severityOrder : List String := ["CRITICAL", "HIGH", "MEDIUM", "LOW", "UNKNOWN"]

/-- Array.prototype.indexOf on the fixed order: the index, or -1 when the
severity is not among the five recognized names. -/
def sevIdx (s : String) : ℤ :=
  match severityOrder.indexOf? s with
  | some i => (i : ℤ)
  | none => -1

/-- The ascending-comparator order on map entries used to sort the
severity breakdown. -/
def entryLE (p q : String × ℕ) : Prop := sevIdx p.1 ≤ sevIdx q.1

instance : DecidableRel entryLE := fun p q =>
  inferInstanceAs (Decidable (sevIdx p.1 ≤ sevIdx q.1))

instance : IsTotal (String × ℕ) entryLE := ⟨fun p q => le_total (sevIdx p.1) (sevIdx q.1)⟩

instance : IsTrans (String × ℕ) entryLE := ⟨fun _ _ _ h1 h2 => le_trans h1 h2⟩

/-- Object.entries(vulnCounts).sort(comparator): a stable sort by the
fixed severity order, as specified for Array.prototype.sort. -/
def sortedEntries (m : List (String × ℕ)) : List (String × ℕ) :=
  List.insertionSort entryLE m

/-- One line of the breakdown. -/
def severityLine (p : String × ℕ) : String := p.1 ++ ": " ++ toString p.2

/-- The lines of the severity breakdown, in sorted order. -/
def breakdownLines (m : List (String × ℕ)) : List String :=
  (sortedEntries m).map severityLine

/-- The breakdown block of the summary file: the joined per-severity
lines when the map has entries, else the no-vulnerabilities text. -/
def breakdownText (m : List (String × ℕ)) : String :=
  if (0 : ℕ) < m.length then String.intercalate "\n" (breakdownLines m)
  else "No vulnerabilities found"

/-- The vulnerability-summary section of the summary file generated by
docker_scan.mjs, as a function of the counting state. -/
def vulnSummarySection (st : AggState) : String :=
  "Total Vulnerabilities: " ++ toString st.totalVulns ++ "\n" ++
    "Unique CVEs: " ++ toString st.cveSet.length ++ "\n\n" ++
    "Breakdown by Severity:\n" ++ breakdownText st.severityMap

/-- The JSON-parsing phase of docker_scan.mjs: when the report file is
absent, or reading it throws (the catch swallows the error), the counters
keep their initial zero values; otherwise the counting pass runs. -/
def parsePhase : Option ScanData → AggState
  | none => initAggState
  | some d => aggregate d

/-- An entry pushed onto the criticalHighVulns array. -/
structure Finding where
  severity : String
  id : String
  title : String
  pkgName : Option String
deriving DecidableEq

/-- The filter condition of the top-findings loop. -/
def isCriticalOrHigh (v : Vuln) : Bool :=
  v.Severity = "CRITICAL" || v.Severity = "HIGH"

/-- The object pushed for one matching record. -/
def toFinding (v : Vuln) : Finding :=
  { severity := v.Severity
    id := v.VulnerabilityID
    title := v.Title.getD "No title"
    pkgName := v.PkgName }

/-- The body of the outer top-findings loop for one result group: push
every CRITICAL or HIGH record of the group, in encounter order. -/
def pushResult (acc : List Finding) (r : ScanResult) : List Finding :=
  match r.Vulnerabilities with
  | some vs =>
      vs.foldl (fun acc2 v => if isCriticalOrHigh v then acc2 ++ [toFinding v] else acc2) acc
  | none => acc

/-- The criticalHighVulns array built by the final loop of
docker_scan.mjs: CRITICAL and HIGH records pushed in encounter order. -/
def criticalHighVulns (d : ScanData) : List Finding :=
  match d.Results with
  | some rs => rs.foldl pushResult []
  | none => []

/-- criticalHighVulns.slice(0, 5), the list of findings actually
displayed. -/
def topFindings (d : ScanData) : List Finding := (criticalHighVulns d).take 5

/-- The worked example of the spec: two HIGH records with the same
identifier followed by one CRITICAL record. -/
def exampleTwoHighOneCritical : ScanData :=
  ⟨some [⟨some [{ VulnerabilityID := "CVE-1", Severity := "HIGH" },
    { VulnerabilityID := "CVE-1", Severity := "HIGH" },
    { VulnerabilityID := "CVE-2", Severity := "CRITICAL" }]⟩]⟩

/-- A report with a single record whose severity string is not one of the
five recognized names. -/
def exampleNegligible : ScanData :=
  ⟨some [⟨some [{ VulnerabilityID := "CVE-3", Severity := "NEGLIGIBLE" }]⟩]⟩

/-- A report with a single HIGH record. -/
def exampleOneHigh : ScanData :=
  ⟨some [⟨some [{ VulnerabilityID := "CVE-9", Severity := "HIGH" }]⟩]⟩

/-- A report where one identifier recurs in two packages of one result
group and a second identifier appears in another group. -/
def exampleTwoPackages : ScanData :=
  ⟨some [⟨some [{ VulnerabilityID := "CVE-1", Severity := "HIGH", PkgName := some "pkg-a" },
    { VulnerabilityID := "CVE-1", Severity := "HIGH", PkgName := some "pkg-b" }]⟩,
    ⟨some [{ VulnerabilityID := "CVE-2", Severity := "CRITICAL", PkgName := some "pkg-c" }]⟩]⟩

/-- A report with an empty result-group list: no records at all. -/
def exampleEmpty : ScanData := ⟨some []⟩

/-- A successful scan whose single result group lists no
vulnerabilities. -/
def exampleCleanScan : ScanData := ⟨some [⟨some []⟩]⟩

/-- Looking a key up after bumping another adds one exactly at the bumped
key. -/
theorem countOf_bump (m : List (String × ℕ)) (k' k : String) :
    countOf (bump m k') k = countOf m k + (if k' = k then 1 else 0) := by
  induction m with
  | nil =>
      by_cases h : k' = k <;> simp [bump, countOf, h]
  | cons p rest ih =>
      obtain ⟨a, v⟩ := p
      by_cases h1 : a = k'
      · subst h1
        by_cases h2 : a = k <;> simp [bump, countOf, h2]
      · by_cases h2 : a = k
        · subst h2
          have hk : ¬ k' = a := fun h => h1 h.symm
          simp [bump, countOf, h1, hk]
        · simp [bump, countOf, h1, h2, ih]

/-- Bumping a key adds one to the sum of all counts. -/
theorem mapTotal_bump (m : List (String × ℕ)) (k : String) :
    mapTotal (bump m k) = mapTotal m + 1 := by
  induction m with
  | nil => simp [bump, mapTotal]
  | cons p rest ih =>
      obtain ⟨a, v⟩ := p
      by_cases h : a = k
      · simp only [bump, if_pos h, mapTotal, List.map_cons, List.sum_cons]
        omega
      · simp only [bump, if_neg h, mapTotal, List.map_cons, List.sum_cons]
        simp only [mapTotal] at ih
        omega

/-- Bumping preserves positivity of all stored counts. -/
theorem bump_pos (m : List (String × ℕ)) (k : String)
    (h : ∀ p ∈ m, 0 < p.2) : ∀ p ∈ bump m k, 0 < p.2 := by
  induction m with
  | nil =>
      intro p hp
      simp only [bump, List.mem_singleton] at hp
      simp [hp]
  | cons q rest ih =>
      obtain ⟨a, v⟩ := q
      intro p hp
      by_cases hk : a = k
      · simp only [bump, if_pos hk] at hp
        rcases List.mem_cons.mp hp with hp1 | hp1
        · simp [hp1]
        · exact h p (List.mem_cons_of_mem _ hp1)
      · simp only [bump, if_neg hk] at hp
        rcases List.mem_cons.mp hp with hp1 | hp1
        · exact hp1 ▸ h (a, v) (List.mem_cons_self _ _)
        · exact ih (fun q hq => h q (List.mem_cons_of_mem _ hq)) p hp1

/-- Adding to the set preserves freedom from duplicates. -/
theorem setAdd_nodup (s : List String) (x : String) (h : s.Nodup) :
    (setAdd s x).Nodup := by
  by_cases hx : x ∈ s
  · simpa [setAdd, hx] using h
  · simp only [setAdd, if_neg hx]
    exact List.Nodup.append h (List.nodup_singleton x) (by simpa using hx)

/-- The set after adding, as a finite set. -/
theorem setAdd_toFinset (s : List String) (x : String) :
    (setAdd s x).toFinset = insert x s.toFinset := by
  by_cases hx : x ∈ s
  · simp [setAdd, hx, Finset.insert_eq_self.mpr (List.mem_toFinset.mpr hx)]
  · simp only [setAdd, if_neg hx, List.toFinset_append, List.toFinset_cons, List.toFinset_nil]
    ext y
    simp [or_comm]

/-- Adding to the set grows its length by at most one. -/
theorem setAdd_length_le (s : List String) (x : String) :
    (setAdd s x).length ≤ s.length + 1 := by
  by_cases hx : x ∈ s <;> simp [setAdd, hx]

/-- Folding the counting step over a record list adds the list length to
the total counter. -/
theorem foldl_totalVulns (vs : List Vuln) (st : AggState) :
    (vs.foldl processVuln st).totalVulns = st.totalVulns + vs.length := by
  induction vs generalizing st with
  | nil => simp
  | cons v rest ih =>
      simp only [List.foldl_cons, ih, processVuln, List.length_cons]
      omega

/-- Folding the counting step adds, at each severity key, the number of
records carrying exactly that severity string. -/
theorem foldl_countOf (vs : List Vuln) (st : AggState) (k : String) :
    countOf (vs.foldl processVuln st).severityMap k =
      countOf st.severityMap k + (vs.filter (fun v => v.Severity = k)).length := by
  induction vs generalizing st with
  | nil => simp
  | cons v rest ih =>
      simp only [List.foldl_cons, ih, processVuln, countOf_bump]
      by_cases h : v.Severity = k <;> simp [List.filter_cons, h]
      all_goals omega

/-- Folding the counting step adds the list length to the sum of all
severity counts. -/
theorem foldl_mapTotal (vs : List Vuln) (st : AggState) :
    mapTotal (vs.foldl processVuln st).severityMap = mapTotal st.severityMap + vs.length := by
  induction vs generalizing st with
  | nil => simp
  | cons v rest ih =>
      simp only [List.foldl_cons, ih, processVuln, mapTotal_bump, List.length_cons]
      omega

/-- Folding the counting step preserves positivity of all severity
counts. -/
theorem foldl_pos (vs : List Vuln) (st : AggState)
    (h : ∀ p ∈ st.severityMap, 0 < p.2) :
    ∀ p ∈ (vs.foldl processVuln st).severityMap, 0 < p.2 := by
  induction vs generalizing st with
  | nil => exact h
  | cons v rest ih =>
      simp only [List.foldl_cons]
      exact ih _ (bump_pos _ _ h)

/-- Folding the counting step preserves freedom from duplicates of the
identifier set. -/
theorem foldl_cveSet_nodup (vs : List Vuln) (st : AggState) (h : st.cveSet.Nodup) :
    (vs.foldl processVuln st).cveSet.Nodup := by
  induction vs generalizing st with
  | nil => exact h
  | cons v rest ih =>
      simp only [List.foldl_cons]
      exact ih _ (setAdd_nodup _ _ h)

/-- After folding, the identifier set holds exactly the previous
identifiers together with those of the processed records. -/
theorem foldl_cveSet_toFinset (vs : List Vuln) (st : AggState) :
    (vs.foldl processVuln st).cveSet.toFinset =
      st.cveSet.toFinset ∪ (vs.map Vuln.VulnerabilityID).toFinset := by
  induction vs generalizing st with
  | nil => simp
  | cons v rest ih =>
      simp only [List.foldl_cons, ih, processVuln, setAdd_toFinset, List.map_cons,
        List.toFinset_cons]
      ext y
      simp

/-- Folding the counting step grows the identifier set by at most the
number of processed records. -/
theorem foldl_cveSet_length (vs : List Vuln) (st : AggState) :
    (vs.foldl processVuln st).cveSet.length ≤ st.cveSet.length + vs.length := by
  induction vs generalizing st with
  | nil => simp
  | cons v rest ih =>
      simp only [List.foldl_cons]
      calc (rest.foldl processVuln (processVuln st v)).cveSet.length
          ≤ (processVuln st v).cveSet.length + rest.length := ih _
        _ ≤ st.cveSet.length + 1 + rest.length :=
            Nat.add_le_add_right (setAdd_length_le _ _) _
        _ = st.cveSet.length + (v :: rest).length := by simp [List.length_cons]; omega

/-- The nested result/record loops amount to folding the counting step
over all records in encounter order. -/
theorem foldl_processResult (rs : List ScanResult) (st : AggState) :
    rs.foldl processResult st =
      ((rs.map (fun r => r.Vulnerabilities.getD [])).flatten).foldl processVuln st := by
  induction rs generalizing st with
  | nil => simp
  | cons r rest ih =>
      simp only [List.foldl_cons, List.map_cons, List.flatten_cons, List.foldl_append, ih]
      congr 1
      cases h : r.Vulnerabilities with
      | none => simp [processResult, h]
      | some vs => simp [processResult, h]

/-- The counting pass equals the fold of the counting step over all
records of the report. -/
theorem aggregate_eq_foldl (d : ScanData) :
    aggregate d = (allVulns d).foldl processVuln initAggState := by
  cases h : d.Results with
  | none => simp [aggregate, allVulns, h]
  | some rs => simp [aggregate, allVulns, h, foldl_processResult]

/-- The total counter of the pass counts every record once. -/
theorem aggregate_totalVulns (d : ScanData) :
    (aggregate d).totalVulns = (allVulns d).length := by
  simp [aggregate_eq_foldl, foldl_totalVulns, initAggState]

/-- The count stored at a severity key is the number of records carrying
exactly that severity string. -/
theorem aggregate_countOf (d : ScanData) (k : String) :
    countOf (aggregate d).severityMap k =
      ((allVulns d).filter (fun v => v.Severity = k)).length := by
  simp [aggregate_eq_foldl, foldl_countOf, initAggState, countOf]

/-- The severity counts of the pass sum to the total counter. -/
theorem aggregate_mapTotal (d : ScanData) :
    mapTotal (aggregate d).severityMap = (aggregate d).totalVulns := by
  rw [aggregate_eq_foldl, foldl_mapTotal, foldl_totalVulns]
  simp [initAggState, mapTotal]

/-- Every count stored in the severity map is positive. -/
theorem aggregate_pos (d : ScanData) : ∀ p ∈ (aggregate d).severityMap, 0 < p.2 := by
  rw [aggregate_eq_foldl]
  exact foldl_pos _ _ (by simp [initAggState])

/-- The identifier set of the pass is duplicate free. -/
theorem aggregate_cveSet_nodup (d : ScanData) : (aggregate d).cveSet.Nodup := by
  rw [aggregate_eq_foldl]
  exact foldl_cveSet_nodup _ _ (by simp [initAggState])

/-- The identifier set of the pass holds exactly the identifiers of the
records. -/
theorem aggregate_cveSet_toFinset (d : ScanData) :
    (aggregate d).cveSet.toFinset = ((allVulns d).map Vuln.VulnerabilityID).toFinset := by
  rw [aggregate_eq_foldl, foldl_cveSet_toFinset]
  simp [initAggState]

/-- The unique-identifier count is the number of distinct identifiers
among all records. -/
theorem aggregate_uniqueCves (d : ScanData) :
    (aggregate d).cveSet.length = ((allVulns d).map Vuln.VulnerabilityID).toFinset.card := by
  rw [← aggregate_cveSet_toFinset,
    List.toFinset_card_of_nodup (aggregate_cveSet_nodup d)]

/-- A map whose counts are all positive is empty exactly when its counts
sum to zero. -/
theorem mapTotal_eq_zero_iff (m : List (String × ℕ)) (h : ∀ p ∈ m, 0 < p.2) :
    mapTotal m = 0 ↔ m = [] := by
  constructor
  · intro h0
    cases m with
    | nil => rfl
    | cons p rest =>
        exfalso
        have hp := h p (List.mem_cons_self _ _)
        simp only [mapTotal, List.map_cons, List.sum_cons] at h0
        omega
  · intro h0
    simp [h0, mapTotal]

/-- The inner push loop of the top-findings pass appends the matching
records, converted to findings and in encounter order. -/
theorem foldl_push (vs : List Vuln) (acc : List Finding) :
    vs.foldl (fun acc2 v => if isCriticalOrHigh v then acc2 ++ [toFinding v] else acc2) acc =
      acc ++ (vs.filter isCriticalOrHigh).map toFinding := by
  induction vs generalizing acc with
  | nil => simp
  | cons v rest ih =>
      by_cases h : isCriticalOrHigh v <;>
        simp [List.foldl_cons, List.filter_cons, h, ih]

/-- The pushing step over one result group appends its matching records
as findings. -/
theorem pushResult_eq (acc : List Finding) (r : ScanResult) :
    pushResult acc r =
      acc ++ ((r.Vulnerabilities.getD []).filter isCriticalOrHigh).map toFinding := by
  cases hr : r.Vulnerabilities with
  | none => simp [pushResult, hr]
  | some vs => simp [pushResult, hr, foldl_push]

/-- The criticalHighVulns array is the encounter-order filter of all
records to the CRITICAL and HIGH ones, converted to findings; no
reordering by severity happens. -/
theorem criticalHighVulns_eq (d : ScanData) :
    criticalHighVulns d = ((allVulns d).filter isCriticalOrHigh).map toFinding := by
  cases h : d.Results with
  | none => simp [criticalHighVulns, allVulns, h]
  | some rs =>
      simp only [criticalHighVulns, allVulns, h]
      suffices hgen : ∀ (rs : List ScanResult) (acc : List Finding),
          rs.foldl pushResult acc =
            acc ++
              (((rs.map (fun r => r.Vulnerabilities.getD [])).flatten).filter
                  isCriticalOrHigh).map toFinding by
        simpa using hgen rs []
      intro rs
      induction rs with
      | nil => simp
      | cons r rest ih =>
          intro acc
          simp [List.foldl_cons, pushResult_eq, ih, List.filter_append]

/-- The parseFloat model yields 1 on the single digit 1. -/
theorem parseFloatDigits_one : parseFloatDigits ['1'] = JsNum.val 1 := by
  have h2 : List.takeWhile Char.isDigit ['1'] = ['1'] := by decide
  have h3 : List.dropWhile Char.isDigit ['1'] = [] := by decide
  have d1 : '1'.toNat - 48 = 1 := by decide
  simp +decide only [parseFloatDigits, h2, h3, digitsVal, List.foldl_cons, List.foldl_nil, d1]

/-- The parseFloat model never yields a negative value: each outcome is
NaN or a nonnegative rational. -/
theorem parseFloatDigits_cases (cs : List Char) :
    parseFloatDigits cs = JsNum.nan ∨
      ∃ q : ℚ, parseFloatDigits cs = JsNum.val q ∧ 0 ≤ q := by
  simp only [parseFloatDigits]
  split
  · split_ifs
    · exact Or.inl rfl
    · refine Or.inr ⟨_, rfl, ?_⟩
      positivity
  · split_ifs
    · exact Or.inl rfl
    · refine Or.inr ⟨_, rfl, ?_⟩
      positivity

/-- The unit switch preserves the NaN-or-nonnegative shape of its
input. -/
theorem applyUnit_cases (x : JsNum) (u : String)
    (hx : x = JsNum.nan ∨ ∃ q : ℚ, x = JsNum.val q ∧ 0 ≤ q) :
    applyUnit x u = JsNum.nan ∨ ∃ q : ℚ, applyUnit x u = JsNum.val q ∧ 0 ≤ q := by
  rcases hx with h | ⟨q, hq, hq0⟩
  · subst h
    unfold applyUnit
    split_ifs
    · exact Or.inl rfl
    · exact Or.inl rfl
    · exact Or.inl rfl
    · exact Or.inl rfl
    · exact Or.inr ⟨0, rfl, le_refl 0⟩
  · subst hq
    unfold applyUnit
    split_ifs
    · exact Or.inr ⟨q * (1024 * 1024 * 1024), rfl, mul_nonneg hq0 (by norm_num)⟩
    · exact Or.inr ⟨q * (1024 * 1024), rfl, mul_nonneg hq0 (by norm_num)⟩
    · exact Or.inr ⟨q * 1024, rfl, mul_nonneg hq0 (by norm_num)⟩
    · exact Or.inr ⟨q, rfl, hq0⟩
    · exact Or.inr ⟨0, rfl, le_refl 0⟩

/-- C1 counterexample: on the record sequence of the spec example (HIGH,
HIGH, CRITICAL) the top-findings list is NOT the claimed
CRITICAL-first list, because the code never sorts by severity. -/
theorem c1_topFindings_counterexample :
    topFindings exampleTwoHighOneCritical ≠
      [⟨"CRITICAL", "CVE-2", "No title", none⟩, ⟨"HIGH", "CVE-1", "No title", none⟩,
        ⟨"HIGH", "CVE-1", "No title", none⟩] := by decide

/-- C1 (amended): the top-findings list is the CRITICAL and HIGH records
in original encounter order, converted to findings and truncated to at
most 5 entries, with no severity sort at all; on the example input the
two HIGH entries therefore precede the CRITICAL one. -/
theorem c1_topFindings_amended :
    (∀ d : ScanData,
      topFindings d = ((((allVulns d).filter isCriticalOrHigh).map toFinding).take 5)) ∧
    topFindings exampleTwoHighOneCritical =
      [⟨"HIGH", "CVE-1", "No title", none⟩, ⟨"HIGH", "CVE-1", "No title", none⟩,
        ⟨"CRITICAL", "CVE-2", "No title", none⟩] := by
  constructor
  · intro d
    rw [topFindings, criticalHighVulns_eq]
  · decide

/-- C2 counterexample: a record with the unrecognized severity string
NEGLIGIBLE is counted under the key NEGLIGIBLE itself; the UNKNOWN bucket
stays at zero. -/
theorem c2_unknownBucket_counterexample :
    countOf (aggregate exampleNegligible).severityMap "UNKNOWN" = 0 ∧
      (aggregate exampleNegligible).severityMap = [("NEGLIGIBLE", 1)] := by decide

/-- C2 (amended): a record with an unrecognized severity string is
counted under its own literal severity string as the bucket key, not
under UNKNOWN; the record is never dropped (the total and that bucket
both count it) and processing is a total function, so it never raises. -/
theorem c2_unknownBucket_amended :
    (∀ (d : ScanData) (sev : String),
      countOf (aggregate d).severityMap sev =
          ((allVulns d).filter (fun v => v.Severity = sev)).length ∧
        (aggregate d).totalVulns = (allVulns d).length) ∧
    countOf (aggregate exampleNegligible).severityMap "NEGLIGIBLE" = 1 ∧
      (aggregate exampleNegligible).totalVulns = 1 :=
  ⟨fun d sev => ⟨aggregate_countOf d sev, aggregate_totalVulns d⟩, by decide, by decide⟩

/-- C3: parseSizeToBytes returns 512 * 1024 * 1024 on 512MB and
1.5 * 1024 ^ 3 on 1.5GB; every string the regex rejects (such as garbage)
warns and yields 0; and the unit multipliers are exactly B = 1,
K = KB = 1024, M = MB = 1024 ^ 2, GB = 1024 ^ 3. -/
theorem c3_parseSizeToBytes_spec :
    (parseSizeToBytes "512MB").bytes = JsNum.val (512 * 1024 * 1024) ∧
    (parseSizeToBytes "1.5GB").bytes = JsNum.val (1.5 * 1024 ^ 3) ∧
    (∀ s : String, matchSizeRegex s = none → parseSizeToBytes s = ⟨JsNum.val 0, true⟩) ∧
    matchSizeRegex "garbage" = none ∧
    (parseSizeToBytes "1B").bytes = JsNum.val 1 ∧
    (parseSizeToBytes "1K").bytes = JsNum.val 1024 ∧
    (parseSizeToBytes "1KB").bytes = JsNum.val 1024 ∧
    (parseSizeToBytes "1M").bytes = JsNum.val (1024 * 1024) ∧
    (parseSizeToBytes "1MB").bytes = JsNum.val (1024 * 1024) ∧
    (parseSizeToBytes "1GB").bytes = JsNum.val (1024 * 1024 * 1024) := by
  refine ⟨?_, ?_, ?_, by decide, ?_, ?_, ?_, ?_, ?_, ?_⟩
  · have h1 : matchSizeRegex "512MB" = some (['5', '1', '2'], "MB") := by decide
    have h2 : List.takeWhile Char.isDigit ['5', '1', '2'] = ['5', '1', '2'] := by decide
    have h3 : List.dropWhile Char.isDigit ['5', '1', '2'] = [] := by decide
    have d5 : '5'.toNat - 48 = 5 := by decide
    have d1 : '1'.toNat - 48 = 1 := by decide
    have d2 : '2'.toNat - 48 = 2 := by decide
    simp +decide only [parseSizeToBytes, h1, parseFloatDigits, h2, h3, applyUnit, jsMulC,
      digitsVal, List.foldl_cons, List.foldl_nil, d5, d1, d2]
    norm_num
  · have h1 : matchSizeRegex "1.5GB" = some (['1', '.', '5'], "GB") := by decide
    have h2 : List.takeWhile Char.isDigit ['1', '.', '5'] = ['1'] := by decide
    have h3 : List.dropWhile Char.isDigit ['1', '.', '5'] = ['.', '5'] := by decide
    have h4 : List.takeWhile Char.isDigit ['5'] = ['5'] := by decide
    have d5 : '5'.toNat - 48 = 5 := by decide
    have d1 : '1'.toNat - 48 = 1 := by decide
    simp +decide only [parseSizeToBytes, h1, parseFloatDigits, h2, h3, h4, applyUnit, jsMulC,
      digitsVal, List.foldl_cons, List.foldl_nil, d5, d1]
    norm_num
  · intro s h
    simp [parseSizeToBytes, h]
  · have h1 : matchSizeRegex "1B" = some (['1'], "B") := by decide
    simp +decide only [parseSizeToBytes, h1, parseFloatDigits_one, applyUnit, jsMulC]
  · have h1 : matchSizeRegex "1K" = some (['1'], "K") := by decide
    simp +decide only [parseSizeToBytes, h1, parseFloatDigits_one, applyUnit, jsMulC]
    norm_num
  · have h1 : matchSizeRegex "1KB" = some (['1'], "KB") := by decide
    simp +decide only [parseSizeToBytes, h1, parseFloatDigits_one, applyUnit, jsMulC]
    norm_num
  · have h1 : matchSizeRegex "1M" = some (['1'], "M") := by decide
    simp +decide only [parseSizeToBytes, h1, parseFloatDigits_one, applyUnit, jsMulC]
    norm_num
  · have h1 : matchSizeRegex "1MB" = some (['1'], "MB") := by decide
    simp +decide only [parseSizeToBytes, h1, parseFloatDigits_one, applyUnit, jsMulC]
    norm_num
  · have h1 : matchSizeRegex "1GB" = some (['1'], "GB") := by decide
    simp +decide only [parseSizeToBytes, h1, parseFloatDigits_one, applyUnit, jsMulC]
    norm_num

/-- C3 witness: the universally quantified no-match clause applied at the
concrete input garbage. -/
theorem c3_parseSizeToBytes_witness :
    parseSizeToBytes "garbage" = ⟨JsNum.val 0, true⟩ :=
  c3_parseSizeToBytes_spec.2.2.1 "garbage" (by decide)

/-- C4: for nonnegative byte counts with at least one nonzero, the
estimate is the sum of both inputs plus the 300 MB buffer (reported in
MB); when both inputs are zero the estimate stays at its N/A sentinel
instead of showing the buffer alone. -/
theorem c4_estimatedTotal_spec :
    (∀ a b : ℚ, 0 ≤ a → 0 ≤ b → (a ≠ 0 ∨ b ≠ 0) →
      estimatedTotalImageSizeMB (JsNum.val a) (JsNum.val b) =
        some (JsNum.val ((a + b + 300 * 1024 * 1024) / (1024 * 1024)))) ∧
    estimatedTotalImageSizeMB (JsNum.val 0) (JsNum.val 0) = none := by
  constructor
  · intro a b ha hb hab
    have hpos : 0 < a ∨ 0 < b := by
      rcases hab with h | h
      · exact Or.inl (lt_of_le_of_ne ha (Ne.symm h))
      · exact Or.inr (lt_of_le_of_ne hb (Ne.symm h))
    have hcond : (jsGt (JsNum.val a) 0 || jsGt (JsNum.val b) 0) = true := by
      rcases hpos with h | h <;> simp [jsGt, h]
    simp [estimatedTotalImageSizeMB, hcond, jsAdd, jsDivC, bufferBytes]
  · simp [estimatedTotalImageSizeMB, jsGt]

/-- C4 witness: the estimate clause applied at one byte of compiled-app
output and an unknown image size. -/
theorem c4_estimatedTotal_witness :
    estimatedTotalImageSizeMB (JsNum.val 1) (JsNum.val 0) =
      some (JsNum.val ((1 + 0 + 300 * 1024 * 1024) / (1024 * 1024))) :=
  c4_estimatedTotal_spec.1 1 0 zero_le_one (le_refl 0) (Or.inl one_ne_zero)

/-- C5 counterexample: for a report with one HIGH record the total is
nonzero, yet the rendered breakdown holds the single line HIGH: 1 and no
CRITICAL: 0 line, so the five-severities-with-zeros rendering the claim
demands does not happen. -/
theorem c5_breakdown_counterexample :
    (aggregate exampleOneHigh).totalVulns ≠ 0 ∧
      breakdownLines (aggregate exampleOneHigh).severityMap = ["HIGH: 1"] ∧
      "CRITICAL: 0" ∉ breakdownLines (aggregate exampleOneHigh).severityMap := by decide

/-- C5 (amended): the summary renders only the severities that actually
occur — every stored count is positive, so zero-count severities are
always omitted, not only when the total is zero; the rendered entries are
sorted by the fixed severity rank; and the map is empty (rendering the
no-vulnerabilities text) exactly when the total count is zero. -/
theorem c5_breakdown_amended (d : ScanData) :
    (∀ p ∈ (aggregate d).severityMap, 0 < p.2) ∧
      (sortedEntries (aggregate d).severityMap).Pairwise entryLE ∧
      ((aggregate d).severityMap = [] ↔ (aggregate d).totalVulns = 0) := by
  refine ⟨aggregate_pos d, ?_, ?_⟩
  · exact List.sorted_insertionSort entryLE ((aggregate d).severityMap)
  · rw [← aggregate_mapTotal]
    exact (mapTotal_eq_zero_iff _ (aggregate_pos d)).symm

/-- C5 witness: the positivity clause applied to the stored HIGH entry of
the one-record report. -/
theorem c5_breakdown_witness :
    0 < (("HIGH", 1) : String × ℕ).2 :=
  (c5_breakdown_amended exampleOneHigh).1 ("HIGH", 1) (by decide)

/-- C6: the unique-identifier count never exceeds the total count, and
the severity counts sum exactly to the total count. -/
theorem c6_invariants (d : ScanData) :
    (aggregate d).cveSet.length ≤ (aggregate d).totalVulns ∧
      mapTotal (aggregate d).severityMap = (aggregate d).totalVulns := by
  constructor
  · rw [aggregate_eq_foldl, foldl_totalVulns]
    have h := foldl_cveSet_length (allVulns d) initAggState
    simpa [initAggState] using h
  · exact aggregate_mapTotal d

/-- C7: every occurrence of a record counts toward the total (and its own
severity bucket), while the unique count counts each distinct identifier
once across all packages; on the spec example (CVE-1 HIGH in two
packages, CVE-2 CRITICAL) the total is 3, the unique count 2 and the
HIGH bucket 2. -/
theorem c7_unique_vs_total :
    (∀ d : ScanData,
      (aggregate d).totalVulns = (allVulns d).length ∧
        (aggregate d).cveSet.length =
          ((allVulns d).map Vuln.VulnerabilityID).toFinset.card) ∧
    (aggregate exampleTwoPackages).totalVulns = 3 ∧
      (aggregate exampleTwoPackages).cveSet.length = 2 ∧
      countOf (aggregate exampleTwoPackages).severityMap "HIGH" = 2 :=
  ⟨fun d => ⟨aggregate_totalVulns d, aggregate_uniqueCves d⟩, by decide, by decide, by decide⟩

/-- C8: aggregating a report with no records yields zero totals, an empty
severity map, an empty identifier set and an empty top-findings list, and
the summary renders the no-vulnerabilities text in place of the
breakdown table. -/
theorem c8_empty_aggregation (d : ScanData) (h : allVulns d = []) :
    aggregate d = initAggState ∧
      (aggregate d).totalVulns = 0 ∧
      (aggregate d).cveSet.length = 0 ∧
      (aggregate d).severityMap = [] ∧
      topFindings d = [] ∧
      breakdownText (aggregate d).severityMap = "No vulnerabilities found" := by
  have hagg : aggregate d = initAggState := by
    rw [aggregate_eq_foldl, h]
    rfl
  refine ⟨hagg, ?_, ?_, ?_, ?_, ?_⟩
  · rw [hagg]; rfl
  · rw [hagg]; rfl
  · rw [hagg]; rfl
  · rw [topFindings, criticalHighVulns_eq, h]
    rfl
  · rw [hagg]
    rfl

/-- C8 witness: the empty-report clause applied to a report whose
result-group list is empty. -/
theorem c8_empty_aggregation_witness :
    aggregate exampleEmpty = initAggState ∧
      (aggregate exampleEmpty).totalVulns = 0 ∧
      (aggregate exampleEmpty).cveSet.length = 0 ∧
      (aggregate exampleEmpty).severityMap = [] ∧
      topFindings exampleEmpty = [] ∧
      breakdownText (aggregate exampleEmpty).severityMap = "No vulnerabilities found" :=
  c8_empty_aggregation exampleEmpty (by decide)

/-- C9 counterexample: the input .B matches the size regex, parseFloat of
the bare dot is NaN, and parseSizeToBytes returns NaN without a warning —
not the claimed sentinel 0 with a warning. -/
theorem c9_nan_counterexample :
    parseSizeToBytes ".B" = ⟨JsNum.nan, false⟩ ∧
      (JsNum.nan ≠ JsNum.val 0) := by
  constructor
  · decide
  · decide

/-- C9 (amended): parseSizeToBytes is a total function that never yields
a negative value — every result is NaN or a nonnegative rational — and
every input the regex rejects yields the sentinel 0 with a warning; but a
regex-matching input whose numeric part holds no digit before a second
dot (such as .B) yields NaN without a warning, rather than 0. -/
theorem c9_safety_amended :
    (∀ s : String, (parseSizeToBytes s).bytes = JsNum.nan ∨
      ∃ q : ℚ, (parseSizeToBytes s).bytes = JsNum.val q ∧ 0 ≤ q) ∧
    (∀ s : String, matchSizeRegex s = none → parseSizeToBytes s = ⟨JsNum.val 0, true⟩) ∧
    parseSizeToBytes ".B" = ⟨JsNum.nan, false⟩ := by
  refine ⟨?_, ?_, by decide⟩
  · intro s
    rw [parseSizeToBytes]
    cases hm : matchSizeRegex s with
    | none => exact Or.inr ⟨0, rfl, le_refl 0⟩
    | some p =>
        obtain ⟨numPart, unit⟩ := p
        exact applyUnit_cases _ _ (parseFloatDigits_cases numPart)
  · intro s h
    simp [parseSizeToBytes, h]

/-- C9 witness: the no-match clause applied at the concrete input
bogus. -/
theorem c9_safety_witness :
    parseSizeToBytes "bogus" = ⟨JsNum.val 0, true⟩ :=
  c9_safety_amended.2.1 "bogus" (by decide)

/-- C10 counterexample: when the scan produces no parseable report the
generated vulnerability summary is character-for-character the summary of
a clean scan with zero findings — the missing data is presented as a
clean result, not surfaced as a no-data-available message. -/
theorem c10_missingReport_counterexample :
    vulnSummarySection (parsePhase none) =
        vulnSummarySection (parsePhase (some exampleCleanScan)) ∧
      vulnSummarySection (parsePhase none) =
        "Total Vulnerabilities: 0\nUnique CVEs: 0\n\nBreakdown by Severity:\nNo vulnerabilities found" := by
  constructor
  · decide
  · decide

/-- C10 (amended): a missing or unreadable report does not crash the
pipeline — the counters keep their initial zero values and the summary is
still generated — but it renders zero counts and the no-vulnerabilities
text, identically to a clean scan with no findings, rather than a
distinct no-data-available marker. -/
theorem c10_missingReport_amended :
    parsePhase none = initAggState ∧
      (∀ d : ScanData, allVulns d = [] →
        vulnSummarySection (parsePhase (some d)) = vulnSummarySection (parsePhase none)) ∧
      breakdownText (parsePhase none).severityMap = "No vulnerabilities found" := by
  refine ⟨rfl, ?_, by decide⟩
  intro d h
  have hagg : aggregate d = initAggState := by
    rw [aggregate_eq_foldl, h]
    rfl
  simp [parsePhase, hagg]

/-- C10 witness: the clean-scan clause applied to a successful scan with
an empty vulnerability list. -/
theorem c10_missingReport_witness :
    vulnSummarySection (parsePhase (some exampleCleanScan)) =
      vulnSummarySection (parsePhase none) :=
  c10_missingReport_amended.2.1 exampleCleanScan (by decide)
